import Mathlib

/-!
Shallow embedding of the ai-solutions-backend Flask application (src/app.py).

The request bodies are JSON objects, modelled as association lists of
string keys to JSON-like values.  Each Flask handler becomes a pure
function from the relevant table (a list of records) and the parsed
request body to a response paired with the post-request table; the
`db.session.rollback()` on error paths is modelled by returning the
table unchanged.  The `datetime.utcnow()` call at persistence time is
modelled by an explicit `now : Nat` parameter, and the autoincrement
primary key by `freshId`.

Python semantics captured deliberately:
  * `abort(n)` raises a `werkzeug.exceptions.HTTPException`, which is a
    subclass of `Exception`; so an `abort(404)`/`abort(400)` raised
    inside a handler's `try: ... except Exception:` block is caught and
    re-raised as a 500 with message `"Failed to ...: <str(e)>"`, where
    `str(e)` is `"<code> <name>: <description>"`.
  * `not data` is true for `None` and for the empty dict.
  * `1 <= x <= 5` on a non-number raises `TypeError`; on a `bool` it
    compares `True` as `1` and `False` as `0` (Python bools are ints).
-/

namespace AiSolutions

/-- A JSON-like value as it appears in a parsed request body.  Floats are
not modelled; none of the verified properties concern them. -/
inductive Json where
  | str : String → Json
  | int : Int → Json
  | bool : Bool → Json
  | null : Json
deriving DecidableEq, Repr

/-- A parsed JSON object body: an association list with the first
occurrence of a key binding it (Python dict keys are unique). -/
abbrev Obj := List (String × Json)

/-- Dictionary lookup, first match. -/
def olookup : Obj → String → Option Json
  | [], _ => none
  | (k, v) :: rest, key => if k = key then some v else olookup rest key

/-- Python `key in data`. -/
def hasKey (o : Obj) (key : String) : Bool := (olookup o key).isSome

/-- Python `data.get(key)` / `data[key]`, with `None` (here `Json.null`)
for an absent key; the handlers only index present keys or use `get`. -/
def oget (o : Obj) (key : String) : Json := (olookup o key).getD Json.null

/-- An inquiry row (table `inquiries` in src/app.py).  String-valued
columns hold the JSON value the handler assigned; optional columns hold
`Json.null` when the key was absent (SQL NULL). -/
structure Inquiry where
  id : Nat
  name : Json
  email : Json
  phone : Json
  company : Json
  country : Json
  job_title : Json
  job_details : Json
  timestamp : Nat
deriving DecidableEq, Repr

/-- A review row (table `reviews`).  The `rating` column is an SQL
integer, so it holds the integer value of the JSON rating. -/
structure Review where
  id : Nat
  name : Json
  company : Json
  review : Json
  rating : Int
  timestamp : Nat
deriving DecidableEq, Repr

/-- A newsletter row (table `newsletters`). -/
structure Newsletter where
  id : Nat
  name : Json
  email : Json
  timestamp : Nat
deriving DecidableEq, Repr

/-- A successful response body: either a `{message: ...}` object or the
JSON serialisation of one record (as the update handlers return). -/
inductive Body where
  | msg : String → Body
  | inquiryRec : Inquiry → Body
  | reviewRec : Review → Body
deriving DecidableEq, Repr

/-- An HTTP response: a success with status and body, or an error with
status and the `message` field produced by `handle_error`. -/
inductive Resp where
  | ok : Nat → Body → Resp
  | err : Nat → String → Resp
deriving DecidableEq, Repr

/-- Whether a response is a success. -/
def Resp.isOk : Resp → Bool
  | Resp.ok _ _ => true
  | Resp.err _ _ => false

/-- Default description of a werkzeug `NotFound`, as `str(e)` renders it
after the `404 Not Found: ` prefix. -/
def notFoundDescription : String :=
  "The requested URL was not found on the server. If you entered the URL manually please check your spelling and try again."

/-- Default description of a werkzeug `InternalServerError`: the message
the registered 500 handler emits for an exception no handler caught. -/
def internalErrorDescription : String :=
  "The server encountered an internal error and was unable to complete your request. Either the server is overloaded or there is an error in the application."

/-- Abstracts the text of the Python `TypeError` raised by comparing an
integer with a non-number (its exact wording names the operand types). -/
def cmpTypeErrorText : String :=
  "not supported between instances of int and the given type"

/-- The autoincrement primary key the database assigns to a new row:
one more than the largest id in the table. -/
def freshId (ids : List Nat) : Nat := ids.foldr max 0 + 1

/-- Python numeric view of a JSON value for the `1 <= rating <= 5`
comparison: integers compare as themselves, booleans as 1/0 (Python
bools are integers), everything else raises `TypeError` (`none`). -/
def asPyInt : Json → Option Int
  | Json.int n => some n
  | Json.bool b => some (if b then 1 else 0)
  | _ => none

/-- Handler `create_inquiry` (POST /api/inquiries, src/app.py:95-122). -/
def create_inquiry (db : List Inquiry) (data : Option Obj) (now : Nat) :
    Resp × List Inquiry :=
  match data with
  | none => (Resp.err 400 "No data provided", db)
  | some o =>
    if o.isEmpty then (Resp.err 400 "No data provided", db)
    else
      let missing := ["name", "email"].filter (fun f => ! hasKey o f)
      if missing.isEmpty then
        let i : Inquiry :=
          ⟨freshId (db.map Inquiry.id), oget o "name", oget o "email",
           oget o "phone", oget o "company", oget o "country",
           oget o "job_title", oget o "job_details", now⟩
        (Resp.ok 201 (Body.msg "Inquiry submitted successfully"), db ++ [i])
      else
        (Resp.err 400 ("Missing required fields: " ++ String.intercalate ", " missing), db)

/-- Handler `create_newsletter` (POST /api/newsletters, src/app.py:243-265). -/
def create_newsletter (db : List Newsletter) (data : Option Obj) (now : Nat) :
    Resp × List Newsletter :=
  match data with
  | none => (Resp.err 400 "No data provided", db)
  | some o =>
    if o.isEmpty then (Resp.err 400 "No data provided", db)
    else
      let missing := ["name", "email"].filter (fun f => ! hasKey o f)
      if missing.isEmpty then
        let n : Newsletter :=
          ⟨freshId (db.map Newsletter.id), oget o "name", oget o "email", now⟩
        (Resp.ok 201 (Body.msg "Newsletter subscription submitted successfully"), db ++ [n])
      else
        (Resp.err 400 ("Missing required fields: " ++ String.intercalate ", " missing), db)

/-- Handler `submit_review` (POST /api/reviews, src/app.py:203-224).
The required-field and rating-range checks precede the `try` block, so
a `TypeError` from the comparison escapes the handler and surfaces as a
generic 500 via the registered error handler. -/
def submit_review (db : List Review) (data : Option Obj) (now : Nat) :
    Resp × List Review :=
  match data with
  | none => (Resp.err 400 "Name, company, review, and rating are required", db)
  | some o =>
    if o.isEmpty ∨ ! hasKey o "name" ∨ ! hasKey o "company" ∨
        ! hasKey o "review" ∨ ! hasKey o "rating" then
      (Resp.err 400 "Name, company, review, and rating are required", db)
    else
      match asPyInt (oget o "rating") with
      | none => (Resp.err 500 internalErrorDescription, db)
      | some n =>
        if 1 ≤ n ∧ n ≤ 5 then
          let r : Review :=
            ⟨freshId (db.map Review.id), oget o "name", oget o "company",
             oget o "review", n, now⟩
          (Resp.ok 201 (Body.msg "Review submitted successfully"), db ++ [r])
        else
          (Resp.err 400 "Rating must be between 1 and 5", db)

/-- Handler `delete_inquiry` (DELETE /api/inquiries/&lt;id&gt;,
src/app.py:283-293).  `get_or_404` raises a werkzeug `NotFound`, which
`except Exception` catches and re-raises as a 500. -/
def delete_inquiry (db : List Inquiry) (inquiry_id : Nat) :
    Resp × List Inquiry :=
  match db.find? (fun i => i.id == inquiry_id) with
  | none =>
    (Resp.err 500 ("Failed to delete inquiry: 404 Not Found: " ++ notFoundDescription), db)
  | some _ =>
    (Resp.ok 200 (Body.msg ("Inquiry " ++ toString inquiry_id ++ " deleted successfully")),
     db.filter (fun i => i.id != inquiry_id))

/-- The field-update chain of `update_inquiry` (src/app.py:306-320):
seven conditional assignments, in source order. -/
def applyInquiryFields (o : Obj) (i0 : Inquiry) : Inquiry :=
  let i1 := if hasKey o "name" then { i0 with name := oget o "name" } else i0
  let i2 := if hasKey o "email" then { i1 with email := oget o "email" } else i1
  let i3 := if hasKey o "phone" then { i2 with phone := oget o "phone" } else i2
  let i4 := if hasKey o "company" then { i3 with company := oget o "company" } else i3
  let i5 := if hasKey o "country" then { i4 with country := oget o "country" } else i4
  let i6 := if hasKey o "job_title" then { i5 with job_title := oget o "job_title" } else i5
  if hasKey o "job_details" then { i6 with job_details := oget o "job_details" } else i6

/-- Handler `update_inquiry` (PUT /api/inquiries/&lt;id&gt;,
src/app.py:296-336).  The `NotFound` from `get_or_404` is caught by
`except Exception` and re-raised as a 500. -/
def update_inquiry (db : List Inquiry) (inquiry_id : Nat) (data : Option Obj) :
    Resp × List Inquiry :=
  match data with
  | none => (Resp.err 400 "No data provided", db)
  | some o =>
    if o.isEmpty then (Resp.err 400 "No data provided", db)
    else
      match db.find? (fun i => i.id == inquiry_id) with
      | none =>
        (Resp.err 500 ("Failed to update inquiry: 404 Not Found: " ++ notFoundDescription), db)
      | some i0 =>
        let i := applyInquiryFields o i0
        (Resp.ok 200 (Body.inquiryRec i),
         db.map (fun r => if r.id = inquiry_id then i else r))

/-- The conditional assignments to `name`, `company` and `review` of
`update_review` (src/app.py:404-409), in source order. -/
def applyReviewTextFields (o : Obj) (r0 : Review) : Review :=
  let r1 := if hasKey o "name" then { r0 with name := oget o "name" } else r0
  let r2 := if hasKey o "company" then { r1 with company := oget o "company" } else r1
  if hasKey o "review" then { r2 with review := oget o "review" } else r2

/-- Handler `update_review` (PUT /api/reviews/&lt;id&gt;,
src/app.py:393-426).  Both the `NotFound` from `get_or_404` and the
`abort(400)` for an out-of-range rating are raised inside the `try`
block, caught by `except Exception`, rolled back, and re-raised as 500;
likewise a `TypeError` from comparing a non-numeric rating. -/
def update_review (db : List Review) (review_id : Nat) (data : Option Obj) :
    Resp × List Review :=
  match data with
  | none => (Resp.err 400 "No data provided", db)
  | some o =>
    if o.isEmpty then (Resp.err 400 "No data provided", db)
    else
      match db.find? (fun r => r.id == review_id) with
      | none =>
        (Resp.err 500 ("Failed to update review: 404 Not Found: " ++ notFoundDescription), db)
      | some r0 =>
        let r3 := applyReviewTextFields o r0
        if hasKey o "rating" then
          match asPyInt (oget o "rating") with
          | none => (Resp.err 500 ("Failed to update review: " ++ cmpTypeErrorText), db)
          | some n =>
            if 1 ≤ n ∧ n ≤ 5 then
              let r4 := { r3 with rating := n }
              (Resp.ok 200 (Body.reviewRec r4),
               db.map (fun r => if r.id = review_id then r4 else r))
            else
              (Resp.err 500 "Failed to update review: 400 Bad Request: Rating must be between 1 and 5", db)
        else
          (Resp.ok 200 (Body.reviewRec r3),
           db.map (fun r => if r.id = review_id then r3 else r))

/-! ### Startup configuration check (src/app.py:17-20) -/

/-- Python truthiness of `os.getenv(var)`: false for an unset variable
and for the empty string. -/
def envTruthy : Option String → Bool
  | none => false
  | some s => ! s.isEmpty

/-- The environment variables validated at import time. -/
def required_vars : List String := ["SECRET_KEY", "DATABASE_URL", "ADMIN_PASSWORD"]

/-- `missing_vars` as computed at startup. -/
def missing_vars (env : String → Option String) : List String :=
  required_vars.filter (fun v => ! envTruthy (env v))

/-- Whether startup raises `RuntimeError` (the process does not start). -/
def startupFails (env : String → Option String) : Bool :=
  ! (missing_vars env).isEmpty

/-! ### Token service and admin guard (src/app.py:68-92)

The header handling — presence and truthiness of `Authorization`, the
Python `str.split()` into whitespace-separated parts, the case-folded
scheme comparison, the exception dispatch and the admin-flag check — is
translated from `admin_required` in the source.  The pyjwt library is
an external collaborator; its encode/decode pair is modelled from the
spec below over a concrete, executable token representation. -/

/-- Python `str.lower()` as used on the scheme: case-fold each
character (ASCII case folding suffices for the `bearer` comparison). -/
def pyLower (s : String) : String := String.mk (s.data.map Char.toLower)

/-- Python `str.split()` with no argument: split on runs of whitespace,
dropping empty parts.  Plain recursion on the character list with an
accumulator for the part being read (in reverse). -/
def pySplitAux : List Char → List Char → List (List Char)
  | [], acc => if acc.isEmpty then [] else [acc.reverse]
  | c :: rest, acc =>
    if c = ' ' ∨ c = '\t' ∨ c = '\n' ∨ c = '\r' then
      if acc.isEmpty then pySplitAux rest []
      else acc.reverse :: pySplitAux rest []
    else pySplitAux rest (c :: acc)

/-- Python `s.split()` on a string. -/
def pySplit (s : String) : List String := (pySplitAux s.data []).map String.mk

/-- The claims carried by an admin token (src/app.py:186-194): the admin
flag, the username echoed from the login request, and the expiry as a
unix timestamp. -/
structure Claims where
  admin : Bool
  username : Option String
  exp : Nat
deriving DecidableEq, Repr

/-- One hexadecimal digit character (argument taken modulo use below). -/
def hexDigitChar (n : Nat) : Char :=
  if n < 10 then Char.ofNat (48 + n) else Char.ofNat (87 + n)

/-- Six-hex-digit, fixed-width rendering of a codepoint (every unicode
scalar value is below 16^6). -/
def hex6 (n : Nat) : List Char :=
  [hexDigitChar (n / 1048576 % 16), hexDigitChar (n / 65536 % 16),
   hexDigitChar (n / 4096 % 16), hexDigitChar (n / 256 % 16),
   hexDigitChar (n / 16 % 16), hexDigitChar (n % 16)]

/-- Hex-render a character list, six digits per character; the result
contains only hex digits, in particular no dot and no whitespace. -/
def hexStr : List Char → List Char
  | [] => []
  | c :: rest => hex6 c.toNat ++ hexStr rest

/-- Numeric value of a hex digit character. -/
def hexVal (c : Char) : Nat :=
  if 97 ≤ c.toNat then c.toNat - 87 else c.toNat - 48

/-- Inverse of `hexStr`: consume six hex digits per character. -/
def unhex : List Char → List Char
  | a :: b :: c :: d :: e :: f :: rest =>
    Char.ofNat (hexVal a * 1048576 + hexVal b * 65536 + hexVal c * 4096 +
      hexVal d * 256 + hexVal e * 16 + hexVal f) :: unhex rest
  | _ => []

/-- Little-endian hex digits of a natural number, by structural
recursion on a fuel bound (`n` itself always suffices). -/
def natToHexFuel : Nat → Nat → List Char
  | 0, _ => []
  | fuel + 1, n => if n = 0 then [] else hexDigitChar (n % 16) :: natToHexFuel fuel (n / 16)

/-- Little-endian hex digits of a natural number (empty for 0). -/
def natToHex (n : Nat) : List Char := natToHexFuel n n

/-- Inverse of `natToHex`. -/
def parseHex : List Char → Nat
  | [] => 0
  | c :: rest => hexVal c + 16 * parseHex rest

/-- Modelled from the spec: the username claim inside the signed payload
(an arbitrary string, or absent), rendered dot-free so the payload's
segment structure is unambiguous. -/
def encUser : Option String → List Char
  | none => ['n']
  | some u => 's' :: hexStr u.data

/-- Payload view of the username segment (total: pyjwt never fails on
the contents of a decoded payload field). -/
def parseUser (l : List Char) : Option String :=
  match l with
  | 's' :: rest => some (String.mk (unhex rest))
  | _ => none

/-- Payload view of the admin segment; anything but the two boolean
renderings is a structurally invalid payload. -/
def parseAdmin : List Char → Option Bool
  | ['1'] => some true
  | ['0'] => some false
  | _ => none

/-- Modelled from the spec: the serialised token payload — admin flag,
expiry, username — as dot-separated segments. -/
def payloadChars (c : Claims) : List Char :=
  (if c.admin then ['1'] else ['0']) ++ '.' :: (natToHex c.exp ++ '.' :: encUser c.username)

/-- Modelled from the spec: the symmetric HMAC-class signature over the
payload, keyed by the server secret.  Rendered dot-free. -/
def macChars (secret : String) (payload : List Char) : List Char :=
  'h' :: hexStr (secret.data ++ '|' :: payload)

/-- Modelled from the spec: `pyjwt.encode` — payload segments followed by
the signature segment, as issued by `login` (src/app.py:186-194). -/
def encodeJwt (secret : String) (c : Claims) : String :=
  String.mk (payloadChars c ++ '.' :: macChars secret (payloadChars c))

/-- Outcome of token validation, mirroring the pyjwt exceptions the
guard distinguishes: success, `ExpiredSignatureError`, or an
`InvalidTokenError` with its message. -/
inductive DecodeResult where
  | ok : Claims → DecodeResult
  | expired : DecodeResult
  | invalid : String → DecodeResult
deriving DecidableEq, Repr

/-- Split a character list at every dot (segments may be empty). -/
def splitDots : List Char → List (List Char)
  | [] => [[]]
  | c :: rest =>
    let r := splitDots rest
    if c = '.' then [] :: r
    else (c :: r.headD []) :: r.tail

/-- Modelled from the spec: `pyjwt.decode(token, secret, ["HS256"])` —
check the segment structure, then verify the signature, then parse the
payload, then validate the `exp` claim against the current time.  A
signature failure on an expired token therefore reports the invalid
signature, as JWT verification must not trust claims it has not yet
authenticated. -/
def jwtDecode (token : String) (secret : String) (now : Nat) : DecodeResult :=
  match splitDots token.data with
  | [a, e, u, s] =>
    if s ≠ macChars secret (a ++ '.' :: (e ++ '.' :: u)) then
      DecodeResult.invalid "Signature verification failed"
    else
      match parseAdmin a with
      | none => DecodeResult.invalid "Invalid payload"
      | some adm =>
        if parseHex e ≤ now then DecodeResult.expired
        else DecodeResult.ok ⟨adm, parseUser u, parseHex e⟩
  | _ => DecodeResult.invalid "Not enough segments"

/-- The decorator `admin_required` (src/app.py:68-92): reject a missing
or falsy header, a header not splitting into exactly two parts
(`ValueError` from unpacking), a scheme other than case-insensitive
`bearer`, an expired or invalid token, and a payload without a truthy
admin flag — in that order — and otherwise run the wrapped handler. -/
def admin_required (authHeader : Option String) (secret : String) (now : Nat)
    (handler : Resp) : Resp :=
  match authHeader with
  | none => Resp.err 401 "Authorization header is missing"
  | some h =>
    if h.isEmpty then Resp.err 401 "Authorization header is missing"
    else
      match pySplit h with
      | [scheme, token] =>
        if pyLower scheme ≠ "bearer" then Resp.err 401 "Invalid authorization scheme"
        else
          match jwtDecode token secret now with
          | DecodeResult.expired => Resp.err 401 "Token has expired"
          | DecodeResult.invalid r => Resp.err 401 ("Invalid token: " ++ r)
          | DecodeResult.ok c =>
            if ! c.admin then Resp.err 403 "Admin privileges required"
            else handler
      | _ => Resp.err 401 "Invalid authorization header format"

/-! ### Claim-side (specification) definitions -/

/-- The guard contract as the amended claim states it: a flat decision
list with the checks in the order missing header, malformed header (not
exactly two whitespace-separated parts, then scheme not case-insensitively
bearer), invalid token (segment structure, then signature, then payload),
expired token, and finally insufficient privilege; `none` means every
check passed and the wrapped handler runs. -/
def guardChecklist (authHeader : Option String) (secret : String) (now : Nat) :
    Option (Nat × String) :=
  match authHeader with
  | none => some (401, "Authorization header is missing")
  | some h =>
    if h.isEmpty then some (401, "Authorization header is missing")
    else
      match pySplit h with
      | [scheme, token] =>
        if pyLower scheme ≠ "bearer" then some (401, "Invalid authorization scheme")
        else
          match splitDots token.data with
          | [a, e, u, s] =>
            if s ≠ macChars secret (a ++ '.' :: (e ++ '.' :: u)) then
              some (401, "Invalid token: Signature verification failed")
            else
              match parseAdmin a with
              | none => some (401, "Invalid token: Invalid payload")
              | some adm =>
                if parseHex e ≤ now then some (401, "Token has expired")
                else if ! adm then some (403, "Admin privileges required")
                else none
          | _ => some (401, "Invalid token: Not enough segments")
      | _ => some (401, "Invalid authorization header format")

/-- Whether a response carries a full record in its body (as opposed to
a bare confirmation message). -/
def returnsFullRecord : Resp → Bool
  | Resp.ok _ (Body.inquiryRec _) => true
  | Resp.ok _ (Body.reviewRec _) => true
  | _ => false

/-- The Review table invariant: every stored rating lies in [1,5]. -/
def ratingsOk (db : List Review) : Prop :=
  ∀ r ∈ db, 1 ≤ r.rating ∧ r.rating ≤ 5

instance (db : List Review) : Decidable (ratingsOk db) := by
  unfold ratingsOk; infer_instance

/-- Case-folded character view of a string. -/
def lowerChars (s : String) : List Char := s.data.map Char.toLower

/-- Case-insensitive substring containment: the error message `hay`
names the field `needle`. -/
def containsCI (hay needle : String) : Prop :=
  lowerChars needle <:+: lowerChars hay

instance (hay needle : String) : Decidable (containsCI hay needle) := by
  unfold containsCI; infer_instance

/-- Claim-side patch for an inquiry update: apply exactly the supplied
keys of the mutable-field whitelist, keep everything else — in
particular `id` and `timestamp` are kept no matter what the body holds,
and keys outside the whitelist are never consulted. -/
def inquiryPatch (o : Obj) (i : Inquiry) : Inquiry :=
  ⟨i.id, (olookup o "name").getD i.name, (olookup o "email").getD i.email,
   (olookup o "phone").getD i.phone, (olookup o "company").getD i.company,
   (olookup o "country").getD i.country, (olookup o "job_title").getD i.job_title,
   (olookup o "job_details").getD i.job_details, i.timestamp⟩

/-- Claim-side patch for a review update: apply exactly the supplied
whitelisted keys (`rating` through its integer value), keep `id` and
`timestamp`, ignore unrecognized keys. -/
def reviewPatch (o : Obj) (r : Review) : Review :=
  ⟨r.id, (olookup o "name").getD r.name, (olookup o "company").getD r.company,
   (olookup o "review").getD r.review,
   (match olookup o "rating" with
    | some v => (asPyInt v).getD r.rating
    | none => r.rating), r.timestamp⟩

/-- The error message `m` names every field in `fields`. -/
def namesAll (m : String) (fields : List String) : Prop :=
  ∀ f ∈ fields, containsCI m f

instance (m : String) (fields : List String) : Decidable (namesAll m fields) := by
  unfold namesAll; infer_instance

/-! ### Lemmas -/

theorem le_foldr_max (ids : List Nat) : ∀ x ∈ ids, x ≤ ids.foldr max 0 := by
  induction ids with
  | nil => simp
  | cons a l ih =>
    intro x hx
    rcases List.mem_cons.mp hx with hx | hx
    · simp [hx, Nat.le_max_left]
    · exact Nat.le_trans (ih x hx) (Nat.le_max_right _ _)

theorem freshId_not_mem (ids : List Nat) : freshId ids ∉ ids := by
  intro hmem
  have h := le_foldr_max ids _ hmem
  simp only [freshId] at h
  omega

theorem applyInquiryFields_eq (o : Obj) (i : Inquiry) :
    applyInquiryFields o i = inquiryPatch o i := by
  unfold applyInquiryFields inquiryPatch hasKey oget
  cases h1 : olookup o "name" <;> cases h2 : olookup o "email" <;>
  cases h3 : olookup o "phone" <;> cases h4 : olookup o "company" <;>
  cases h5 : olookup o "country" <;> cases h6 : olookup o "job_title" <;>
  cases h7 : olookup o "job_details" <;>
  simp [h1, h2, h3, h4, h5, h6, h7]

theorem applyReviewTextFields_eq (o : Obj) (r : Review) :
    applyReviewTextFields o r =
      ⟨r.id, (olookup o "name").getD r.name, (olookup o "company").getD r.company,
       (olookup o "review").getD r.review, r.rating, r.timestamp⟩ := by
  unfold applyReviewTextFields hasKey oget
  cases h1 : olookup o "name" <;> cases h2 : olookup o "company" <;>
  cases h3 : olookup o "review" <;>
  simp [h1, h2, h3]

/-! ### Claim theorems -/

/-- C1: the claim says an update or delete on an id with no record fails
with NotFound reported as HTTP 404.  In the code `get_or_404` raises a
werkzeug `NotFound` inside `try: ... except Exception:`, which catches
it and re-raises it as a 500; deleting an absent (e.g. already-deleted)
inquiry id and updating an absent review id both answer 500, not 404. -/
theorem claim1_missing_id_gives_500_not_404 :
    delete_inquiry [] 7 =
      (Resp.err 500 ("Failed to delete inquiry: 404 Not Found: " ++ notFoundDescription), []) ∧
    update_review [] 7 (some [("name", Json.str "x")]) =
      (Resp.err 500 ("Failed to update review: 404 Not Found: " ++ notFoundDescription), []) := by
  exact ⟨rfl, rfl⟩

/-- C2: the claim says a review update with an out-of-range rating fails
with ValidationError reported as HTTP 400 and applies no field.  The
no-field-applied half holds (the session is rolled back), but the
`abort(400)` is raised inside `try: ... except Exception:`, so the code
answers 500, not 400: here rating 6 on an existing review leaves the
record untouched and returns 500. -/
theorem claim2_update_bad_rating_500_and_unchanged :
    update_review [⟨1, Json.str "A", Json.str "C", Json.str "R", 3, 10⟩] 1
        (some [("name", Json.str "B"), ("rating", Json.int 6)]) =
      (Resp.err 500 "Failed to update review: 400 Bad Request: Rating must be between 1 and 5",
       [⟨1, Json.str "A", Json.str "C", Json.str "R", 3, 10⟩]) := by
  exact rfl

/-- C10: a review-create body with all required keys but a string-valued
rating makes `1 <= data["rating"] <= 5` raise `TypeError` outside the
handler's `try`, so the request fails with the generic 500 (not a 400
ValidationError) and no record is created. -/
theorem claim10_noncomparable_rating_generic_500 :
    submit_review [] (some [("name", Json.str "Ada"), ("company", Json.str "Acme"),
        ("review", Json.str "Great"), ("rating", Json.str "great")]) 0 =
      (Resp.err 500 internalErrorDescription, []) := by
  exact rfl

/-- C5 counterexample: with the signing secret, the storage connection
string and the admin password all set but ADMIN_USERNAME unset, the
startup validation finds nothing missing and the process starts, so a
missing admin username alone does not prevent startup. -/
theorem claim5_counterexample :
    envTruthy ((fun v => if v = "ADMIN_USERNAME" then none else some "set") "ADMIN_USERNAME") = false ∧
    startupFails (fun v => if v = "ADMIN_USERNAME" then none else some "set") = false := by
  exact ⟨rfl, rfl⟩

/-- C5 amended: startup fails exactly when the signing secret, the
storage connection string, or the admin password is absent or empty;
the admin username is not consulted at startup. -/
theorem claim5_startup_requires_secret_db_password (env : String → Option String) :
    startupFails env = false ↔
      (envTruthy (env "SECRET_KEY") = true ∧ envTruthy (env "DATABASE_URL") = true ∧
       envTruthy (env "ADMIN_PASSWORD") = true) := by
  cases h1 : envTruthy (env "SECRET_KEY") <;>
  cases h2 : envTruthy (env "DATABASE_URL") <;>
  cases h3 : envTruthy (env "ADMIN_PASSWORD") <;>
  simp [startupFails, missing_vars, required_vars, h1, h2, h3]

/-- C7 counterexample: a valid inquiry creation persists the record (with
server-assigned id 1 and the supplied timestamp) but the 201 response
carries only a confirmation message, not the created record. -/
theorem claim7_counterexample :
    returnsFullRecord (create_inquiry []
        (some [("name", Json.str "Ada"), ("email", Json.str "a@b.com")]) 5).1 = false ∧
    (create_inquiry [] (some [("name", Json.str "Ada"), ("email", Json.str "a@b.com")]) 5).2 =
      [⟨1, Json.str "Ada", Json.str "a@b.com", Json.null, Json.null,
        Json.null, Json.null, Json.null, 5⟩] := by
  exact ⟨rfl, rfl⟩

/-- C7 amended: every valid inquiry create persists a new record with a
server-assigned fresh id and the server-side UTC timestamp of the
moment of persistence, but the 201 response carries only the message
`Inquiry submitted successfully`, not the created record. -/
theorem claim7_create_persists_fresh_record_returns_message
    (db : List Inquiry) (o : Obj) (now : Nat)
    (hname : hasKey o "name" = true) (hemail : hasKey o "email" = true) :
    create_inquiry db (some o) now =
      (Resp.ok 201 (Body.msg "Inquiry submitted successfully"),
       db ++ [⟨freshId (db.map Inquiry.id), oget o "name", oget o "email",
               oget o "phone", oget o "company", oget o "country",
               oget o "job_title", oget o "job_details", now⟩]) ∧
    freshId (db.map Inquiry.id) ∉ db.map Inquiry.id := by
  have hne : o.isEmpty = false := by
    cases o with
    | nil => simp [hasKey, olookup] at hname
    | cons a l => rfl
  refine ⟨?_, freshId_not_mem _⟩
  simp [create_inquiry, hne, hname, hemail]

/-- C7 witness. -/
theorem claim7_witness :
    create_inquiry [] (some [("name", Json.str "Ada"), ("email", Json.str "a@b.com")]) 5 =
      (Resp.ok 201 (Body.msg "Inquiry submitted successfully"),
       [] ++ [⟨freshId (([] : List Inquiry).map Inquiry.id), Json.str "Ada", Json.str "a@b.com",
               Json.null, Json.null, Json.null, Json.null, Json.null, 5⟩]) ∧
    freshId (([] : List Inquiry).map Inquiry.id) ∉ ([] : List Inquiry).map Inquiry.id := by
  have h := claim7_create_persists_fresh_record_returns_message []
    [("name", Json.str "Ada"), ("email", Json.str "a@b.com")] 5 (by decide) (by decide)
  simpa using h

/-- C6: a create request with a non-empty body missing required fields
fails with a 400 whose message names every missing field, separately for
each entity: `create_inquiry` and `create_newsletter` join the computed
list of missing fields into the message whenever their own required set
has a missing member, and `submit_review` answers a fixed message naming
all four of its required fields (hence every missing one) whenever its
own required set has a missing member, with no condition tied to the
other entities' field sets. -/
theorem claim6_missing_fields_all_named
    (dbI : List Inquiry) (dbN : List Newsletter) (dbR : List Review) (o : Obj) (now : Nat) :
    (o.isEmpty = false →
      (["name", "email"].filter (fun f => ! hasKey o f)).isEmpty = false →
      (create_inquiry dbI (some o) now).1 =
        Resp.err 400 ("Missing required fields: " ++
          String.intercalate ", " (["name", "email"].filter (fun f => ! hasKey o f))) ∧
      namesAll ("Missing required fields: " ++
          String.intercalate ", " (["name", "email"].filter (fun f => ! hasKey o f)))
        (["name", "email"].filter (fun f => ! hasKey o f))) ∧
    (o.isEmpty = false →
      (["name", "email"].filter (fun f => ! hasKey o f)).isEmpty = false →
      (create_newsletter dbN (some o) now).1 =
        Resp.err 400 ("Missing required fields: " ++
          String.intercalate ", " (["name", "email"].filter (fun f => ! hasKey o f))) ∧
      namesAll ("Missing required fields: " ++
          String.intercalate ", " (["name", "email"].filter (fun f => ! hasKey o f)))
        (["name", "email"].filter (fun f => ! hasKey o f))) ∧
    ((["name", "company", "review", "rating"].filter (fun f => ! hasKey o f)).isEmpty = false →
      (submit_review dbR (some o) now).1 =
        Resp.err 400 "Name, company, review, and rating are required" ∧
      namesAll "Name, company, review, and rating are required"
        (["name", "company", "review", "rating"].filter (fun f => ! hasKey o f))) := by
  refine ⟨?_, ?_, ?_⟩
  · intro hne hmiss
    refine ⟨?_, ?_⟩
    · simp [create_inquiry, hne, hmiss]
    · cases hn : hasKey o "name" <;> cases he : hasKey o "email" <;>
        simp only [List.filter, hn, he] <;> decide
  · intro hne hmiss
    refine ⟨?_, ?_⟩
    · simp [create_newsletter, hne, hmiss]
    · cases hn : hasKey o "name" <;> cases he : hasKey o "email" <;>
        simp only [List.filter, hn, he] <;> decide
  · intro hmissR
    refine ⟨?_, ?_⟩
    · by_cases hemp : o.isEmpty
      · simp [submit_review, hemp]
      · cases h1 : hasKey o "name" <;> cases h2 : hasKey o "company" <;>
          cases h3 : hasKey o "review" <;> cases h4 : hasKey o "rating" <;>
          simp_all [submit_review]
    · intro f hf
      have hmem := List.mem_of_mem_filter hf
      simp only [List.mem_cons, List.not_mem_nil, or_false] at hmem
      rcases hmem with rfl | rfl | rfl | rfl <;> decide

/-- C6 witness. -/
theorem claim6_witness :
    ((create_inquiry [] (some [("phone", Json.str "555")]) 0).1 =
        Resp.err 400 ("Missing required fields: " ++
          String.intercalate ", "
            (["name", "email"].filter (fun f => ! hasKey [("phone", Json.str "555")] f))) ∧
      namesAll ("Missing required fields: " ++
          String.intercalate ", "
            (["name", "email"].filter (fun f => ! hasKey [("phone", Json.str "555")] f)))
        (["name", "email"].filter (fun f => ! hasKey [("phone", Json.str "555")] f))) ∧
    ((create_newsletter [] (some [("phone", Json.str "555")]) 0).1 =
        Resp.err 400 ("Missing required fields: " ++
          String.intercalate ", "
            (["name", "email"].filter (fun f => ! hasKey [("phone", Json.str "555")] f))) ∧
      namesAll ("Missing required fields: " ++
          String.intercalate ", "
            (["name", "email"].filter (fun f => ! hasKey [("phone", Json.str "555")] f)))
        (["name", "email"].filter (fun f => ! hasKey [("phone", Json.str "555")] f))) ∧
    ((submit_review [] (some [("phone", Json.str "555")]) 0).1 =
        Resp.err 400 "Name, company, review, and rating are required" ∧
      namesAll "Name, company, review, and rating are required"
        (["name", "company", "review", "rating"].filter
          (fun f => ! hasKey [("phone", Json.str "555")] f))) := by
  have h := claim6_missing_fields_all_named [] [] [] [("phone", Json.str "555")] 0
  exact ⟨h.1 (by decide) (by decide), h.2.1 (by decide) (by decide), h.2.2 (by decide)⟩

/-- C4: the rating invariant.  Starting from a table whose ratings all
lie in [1,5]: any review create or update leaves a table whose ratings
all lie in [1,5]; whenever the write is rejected the table is exactly
as before (the session rollback discards partial assignments); and
every write that would violate the invariant is rejected: a supplied
rating that is comparable but outside [1,5], or not comparable with
integers at all, makes both the create and the update answer an error
response — which with the previous clause means the table is unchanged. -/
theorem claim4_rating_invariant_preserved
    (db : List Review) (data : Option Obj) (now : Nat) (rid : Nat)
    (hdb : ratingsOk db) :
    (ratingsOk (submit_review db data now).2 ∧
      ((submit_review db data now).1.isOk = false → (submit_review db data now).2 = db)) ∧
    (ratingsOk (update_review db rid data).2 ∧
      ((update_review db rid data).1.isOk = false → (update_review db rid data).2 = db)) ∧
    (∀ o v n, data = some o → olookup o "rating" = some v → asPyInt v = some n →
      ¬(1 ≤ n ∧ n ≤ 5) →
      (submit_review db data now).1.isOk = false ∧
      (update_review db rid data).1.isOk = false) ∧
    (∀ o v, data = some o → olookup o "rating" = some v → asPyInt v = none →
      (submit_review db data now).1.isOk = false ∧
      (update_review db rid data).1.isOk = false) := by
  refine ⟨?_, ?_, ?_, ?_⟩
  · cases data with
    | none => exact ⟨hdb, fun _ => rfl⟩
    | some o =>
      simp only [submit_review]
      split
      · exact ⟨hdb, fun _ => rfl⟩
      · split
        · exact ⟨hdb, fun _ => rfl⟩
        · rename_i n hp
          split
          · rename_i hrange
            refine ⟨?_, by simp [Resp.isOk]⟩
            intro r hr
            rcases List.mem_append.mp hr with hr | hr
            · exact hdb r hr
            · simp only [List.mem_singleton] at hr
              subst hr
              exact hrange
          · exact ⟨hdb, fun _ => rfl⟩
  · cases data with
    | none => exact ⟨hdb, fun _ => rfl⟩
    | some o =>
      simp only [update_review]
      split
      · exact ⟨hdb, fun _ => rfl⟩
      · split
        · exact ⟨hdb, fun _ => rfl⟩
        · rename_i r0 hfind
          have hr0 : 1 ≤ r0.rating ∧ r0.rating ≤ 5 :=
            hdb r0 (List.mem_of_find?_eq_some hfind)
          have htext : (applyReviewTextFields o r0).rating = r0.rating := by
            rw [applyReviewTextFields_eq]
          split
          · split
            · exact ⟨hdb, fun _ => rfl⟩
            · rename_i n hp
              split
              · rename_i hrange
                refine ⟨?_, by simp [Resp.isOk]⟩
                intro r hr
                rcases List.mem_map.mp hr with ⟨x, hx, hxe⟩
                by_cases hxid : x.id = rid
                · rw [if_pos hxid] at hxe
                  subst hxe
                  exact hrange
                · rw [if_neg hxid] at hxe
                  subst hxe
                  exact hdb x hx
              · exact ⟨hdb, fun _ => rfl⟩
          · refine ⟨?_, by simp [Resp.isOk]⟩
            intro r hr
            rcases List.mem_map.mp hr with ⟨x, hx, hxe⟩
            by_cases hxid : x.id = rid
            · rw [if_pos hxid] at hxe
              subst hxe
              rw [htext]
              exact hr0
            · rw [if_neg hxid] at hxe
              subst hxe
              exact hdb x hx
  · intro o v n hdata hv hn hrange
    subst hdata
    constructor
    · simp only [submit_review]
      split
      · rfl
      · split
        · rfl
        · rename_i m hm
          have hg : oget o "rating" = v := by simp [oget, hv]
          rw [hg, hn] at hm
          injection hm with hm'
          subst hm'
          split
          · rename_i hr
            exact absurd hr hrange
          · rfl
    · simp only [update_review]
      split
      · rfl
      · split
        · rfl
        · split
          · split
            · rfl
            · rename_i m hm
              have hg : oget o "rating" = v := by simp [oget, hv]
              rw [hg, hn] at hm
              injection hm with hm'
              subst hm'
              split
              · rename_i hr
                exact absurd hr hrange
              · rfl
          · rename_i hk
            exact absurd (by simp [hasKey, hv]) hk
  · intro o v hdata hv hnone
    subst hdata
    constructor
    · simp only [submit_review]
      split
      · rfl
      · split
        · rfl
        · rename_i m hm
          have hg : oget o "rating" = v := by simp [oget, hv]
          rw [hg, hnone] at hm
          exact absurd hm (by simp)
    · simp only [update_review]
      split
      · rfl
      · split
        · rfl
        · split
          · split
            · rfl
            · rename_i m hm
              have hg : oget o "rating" = v := by simp [oget, hv]
              rw [hg, hnone] at hm
              exact absurd hm (by simp)
          · rename_i hk
            exact absurd (by simp [hasKey, hv]) hk

/-- C4 witness: the body carries an out-of-range rating 6, exercising
the violating-write clause: both writes err and leave the table as it
was. -/
theorem claim4_witness :
    ratingsOk (submit_review [⟨1, Json.str "A", Json.str "C", Json.str "R", 3, 10⟩]
      (some [("name", Json.str "A"), ("company", Json.str "B"),
             ("review", Json.str "C"), ("rating", Json.int 6)]) 0).2 ∧
    (submit_review [⟨1, Json.str "A", Json.str "C", Json.str "R", 3, 10⟩]
      (some [("name", Json.str "A"), ("company", Json.str "B"),
             ("review", Json.str "C"), ("rating", Json.int 6)]) 0).1.isOk = false ∧
    (submit_review [⟨1, Json.str "A", Json.str "C", Json.str "R", 3, 10⟩]
      (some [("name", Json.str "A"), ("company", Json.str "B"),
             ("review", Json.str "C"), ("rating", Json.int 6)]) 0).2 =
      [⟨1, Json.str "A", Json.str "C", Json.str "R", 3, 10⟩] ∧
    ratingsOk (update_review [⟨1, Json.str "A", Json.str "C", Json.str "R", 3, 10⟩] 1
      (some [("name", Json.str "A"), ("company", Json.str "B"),
             ("review", Json.str "C"), ("rating", Json.int 6)])).2 ∧
    (update_review [⟨1, Json.str "A", Json.str "C", Json.str "R", 3, 10⟩] 1
      (some [("name", Json.str "A"), ("company", Json.str "B"),
             ("review", Json.str "C"), ("rating", Json.int 6)])).1.isOk = false ∧
    (update_review [⟨1, Json.str "A", Json.str "C", Json.str "R", 3, 10⟩] 1
      (some [("name", Json.str "A"), ("company", Json.str "B"),
             ("review", Json.str "C"), ("rating", Json.int 6)])).2 =
      [⟨1, Json.str "A", Json.str "C", Json.str "R", 3, 10⟩] := by
  have h := claim4_rating_invariant_preserved
    [⟨1, Json.str "A", Json.str "C", Json.str "R", 3, 10⟩]
    (some [("name", Json.str "A"), ("company", Json.str "B"),
           ("review", Json.str "C"), ("rating", Json.int 6)]) 0 1 (by decide)
  obtain ⟨⟨hs1, hs2⟩, ⟨hu1, hu2⟩, h3, _⟩ := h
  have hbad := h3 [("name", Json.str "A"), ("company", Json.str "B"),
    ("review", Json.str "C"), ("rating", Json.int 6)] (Json.int 6) 6 rfl rfl rfl (by decide)
  exact ⟨hs1, hbad.1, hs2 hbad.1, hu1, hbad.2, hu2 hbad.2⟩

/-- C8: an update of an existing record with a non-empty body applies
exactly the supplied whitelisted fields: the result equals the
claim-side patch, which consults only the entity's mutable fields —
unrecognized keys are ignored and `id`/`timestamp` are kept regardless
of their presence in the body — and the returned record (hence its
timestamp) is the post-update row with the original timestamp. -/
theorem claim8_update_applies_only_whitelisted_fields
    (dbI : List Inquiry) (dbR : List Review) (iid rid : Nat) (oI oR : Obj)
    (i0 : Inquiry) (r0 : Review)
    (hfindI : dbI.find? (fun i => i.id == iid) = some i0)
    (hfindR : dbR.find? (fun r => r.id == rid) = some r0)
    (hneI : oI.isEmpty = false) (hneR : oR.isEmpty = false)
    (hrating : ∀ v, olookup oR "rating" = some v →
      ∃ n, asPyInt v = some n ∧ 1 ≤ n ∧ n ≤ 5) :
    update_inquiry dbI iid (some oI) =
      (Resp.ok 200 (Body.inquiryRec (inquiryPatch oI i0)),
       dbI.map (fun r => if r.id = iid then inquiryPatch oI i0 else r)) ∧
    (inquiryPatch oI i0).id = i0.id ∧
    (inquiryPatch oI i0).timestamp = i0.timestamp ∧
    update_review dbR rid (some oR) =
      (Resp.ok 200 (Body.reviewRec (reviewPatch oR r0)),
       dbR.map (fun r => if r.id = rid then reviewPatch oR r0 else r)) ∧
    (reviewPatch oR r0).id = r0.id ∧
    (reviewPatch oR r0).timestamp = r0.timestamp := by
  refine ⟨?_, rfl, rfl, ?_, rfl, rfl⟩
  · simp [update_inquiry, hneI, hfindI, applyInquiryFields_eq]
  · cases hr : olookup oR "rating" with
    | none =>
      have hkey : hasKey oR "rating" = false := by simp [hasKey, hr]
      simp [update_review, hneR, hfindR, hkey, applyReviewTextFields_eq, reviewPatch, hr]
    | some v =>
      obtain ⟨n, hv, h1, h5⟩ := hrating v hr
      have hkey : hasKey oR "rating" = true := by simp [hasKey, hr]
      have hget : oget oR "rating" = v := by simp [oget, hr]
      simp [update_review, hneR, hfindR, hkey, hget, hv, h1, h5,
        applyReviewTextFields_eq, reviewPatch, hr]

/-- C8 witness: the body carries one recognized key, one unrecognized
key, and caller-supplied `id` and `timestamp` keys. -/
theorem claim8_witness :
    update_inquiry [⟨1, Json.str "N", Json.str "E", Json.null, Json.null, Json.null,
        Json.null, Json.null, 42⟩] 1
      (some [("email", Json.str "new"), ("bogus", Json.int 7),
             ("id", Json.int 99), ("timestamp", Json.int 0)]) =
      (Resp.ok 200 (Body.inquiryRec (inquiryPatch
         [("email", Json.str "new"), ("bogus", Json.int 7),
          ("id", Json.int 99), ("timestamp", Json.int 0)]
         ⟨1, Json.str "N", Json.str "E", Json.null, Json.null, Json.null,
          Json.null, Json.null, 42⟩)),
       [⟨1, Json.str "N", Json.str "E", Json.null, Json.null, Json.null,
         Json.null, Json.null, 42⟩].map (fun r => if r.id = 1 then inquiryPatch
         [("email", Json.str "new"), ("bogus", Json.int 7),
          ("id", Json.int 99), ("timestamp", Json.int 0)]
         ⟨1, Json.str "N", Json.str "E", Json.null, Json.null, Json.null,
          Json.null, Json.null, 42⟩ else r)) ∧
    (inquiryPatch
       [("email", Json.str "new"), ("bogus", Json.int 7),
        ("id", Json.int 99), ("timestamp", Json.int 0)]
       ⟨1, Json.str "N", Json.str "E", Json.null, Json.null, Json.null,
        Json.null, Json.null, 42⟩).id = 1 ∧
    (inquiryPatch
       [("email", Json.str "new"), ("bogus", Json.int 7),
        ("id", Json.int 99), ("timestamp", Json.int 0)]
       ⟨1, Json.str "N", Json.str "E", Json.null, Json.null, Json.null,
        Json.null, Json.null, 42⟩).timestamp = 42 ∧
    update_review [⟨1, Json.str "A", Json.str "C", Json.str "R", 3, 10⟩] 1
      (some [("rating", Json.int 5), ("id", Json.int 99)]) =
      (Resp.ok 200 (Body.reviewRec (reviewPatch
         [("rating", Json.int 5), ("id", Json.int 99)]
         ⟨1, Json.str "A", Json.str "C", Json.str "R", 3, 10⟩)),
       [⟨1, Json.str "A", Json.str "C", Json.str "R", 3, 10⟩].map
         (fun r => if r.id = 1 then reviewPatch
           [("rating", Json.int 5), ("id", Json.int 99)]
           ⟨1, Json.str "A", Json.str "C", Json.str "R", 3, 10⟩ else r)) ∧
    (reviewPatch [("rating", Json.int 5), ("id", Json.int 99)]
       ⟨1, Json.str "A", Json.str "C", Json.str "R", 3, 10⟩).id = 1 ∧
    (reviewPatch [("rating", Json.int 5), ("id", Json.int 99)]
       ⟨1, Json.str "A", Json.str "C", Json.str "R", 3, 10⟩).timestamp = 10 :=
  claim8_update_applies_only_whitelisted_fields
    [⟨1, Json.str "N", Json.str "E", Json.null, Json.null, Json.null, Json.null, Json.null, 42⟩]
    [⟨1, Json.str "A", Json.str "C", Json.str "R", 3, 10⟩] 1 1
    [("email", Json.str "new"), ("bogus", Json.int 7), ("id", Json.int 99), ("timestamp", Json.int 0)]
    [("rating", Json.int 5), ("id", Json.int 99)]
    ⟨1, Json.str "N", Json.str "E", Json.null, Json.null, Json.null, Json.null, Json.null, 42⟩
    ⟨1, Json.str "A", Json.str "C", Json.str "R", 3, 10⟩
    (by rfl) (by rfl) (by rfl) (by rfl)
    (fun v hv => by
      rw [show olookup [("rating", Json.int 5), ("id", Json.int 99)] "rating" =
        some (Json.int 5) from rfl] at hv
      injection hv with h
      subst h
      exact ⟨5, rfl, by decide, by decide⟩)


/-! ### Token codec lemmas and guard theorems -/

theorem hexDigitChar_ne_dot {n : Nat} (h : n < 16) : hexDigitChar n ≠ '.' := by
  interval_cases n <;> decide

theorem dot_not_mem_hex6 (n : Nat) : '.' ∉ hex6 n := by
  intro hmem
  simp only [hex6, List.mem_cons, List.not_mem_nil, or_false] at hmem
  rcases hmem with h | h | h | h | h | h <;>
    exact hexDigitChar_ne_dot (Nat.mod_lt _ (by omega)) h.symm

theorem dot_not_mem_hexStr (l : List Char) : '.' ∉ hexStr l := by
  induction l with
  | nil => simp [hexStr]
  | cons c rest ih =>
    simp only [hexStr]
    intro hmem
    rcases List.mem_append.mp hmem with h | h
    · exact dot_not_mem_hex6 _ h
    · exact ih h

theorem dot_not_mem_natToHexFuel (fuel : Nat) : ∀ n, '.' ∉ natToHexFuel fuel n := by
  induction fuel with
  | zero => intro n; simp [natToHexFuel]
  | succ f ih =>
    intro n
    simp only [natToHexFuel]
    split
    · simp
    · intro hmem
      rcases List.mem_cons.mp hmem with h | h
      · exact hexDigitChar_ne_dot (Nat.mod_lt _ (by omega)) h.symm
      · exact ih _ h

theorem dot_not_mem_natToHex (n : Nat) : '.' ∉ natToHex n :=
  dot_not_mem_natToHexFuel n n

theorem splitDots_cons_ne (c : Char) (rest : List Char) (hc : c ≠ '.') :
    splitDots (c :: rest) = (c :: (splitDots rest).headD []) :: (splitDots rest).tail := by
  simp [splitDots, hc]

theorem splitDots_append (x y : List Char) (hx : '.' ∉ x) :
    splitDots (x ++ '.' :: y) = x :: splitDots y := by
  induction x with
  | nil => simp [splitDots]
  | cons c x ih =>
    have hc : c ≠ '.' := fun h => hx (h ▸ List.mem_cons_self _ _)
    have hx' : '.' ∉ x := fun h => hx (List.mem_cons_of_mem _ h)
    rw [List.cons_append, splitDots_cons_ne _ _ hc, ih hx']
    rfl

theorem splitDots_single (x : List Char) (hx : '.' ∉ x) : splitDots x = [x] := by
  induction x with
  | nil => rfl
  | cons c x ih =>
    have hc : c ≠ '.' := fun h => hx (h ▸ List.mem_cons_self _ _)
    have hx' : '.' ∉ x := fun h => hx (List.mem_cons_of_mem _ h)
    rw [splitDots_cons_ne _ _ hc, ih hx']
    rfl

theorem hexVal_hexDigitChar {n : Nat} (h : n < 16) : hexVal (hexDigitChar n) = n := by
  interval_cases n <;> decide

theorem char_toNat_lt (c : Char) : c.toNat < 16777216 := by
  rcases c.valid with h | ⟨h1, h2⟩
  · exact Nat.lt_trans h (by omega)
  · exact Nat.lt_trans h2 (by omega)

theorem unhex_hexStr (l : List Char) : unhex (hexStr l) = l := by
  induction l with
  | nil => rfl
  | cons c rest ih =>
    have hc6 : hexStr (c :: rest) = hexDigitChar (c.toNat / 1048576 % 16) ::
        hexDigitChar (c.toNat / 65536 % 16) :: hexDigitChar (c.toNat / 4096 % 16) ::
        hexDigitChar (c.toNat / 256 % 16) :: hexDigitChar (c.toNat / 16 % 16) ::
        hexDigitChar (c.toNat % 16) :: hexStr rest := by
      simp [hexStr, hex6]
    rw [hc6]
    simp only [unhex]
    rw [hexVal_hexDigitChar (Nat.mod_lt _ (by omega)),
      hexVal_hexDigitChar (Nat.mod_lt _ (by omega)),
      hexVal_hexDigitChar (Nat.mod_lt _ (by omega)),
      hexVal_hexDigitChar (Nat.mod_lt _ (by omega)),
      hexVal_hexDigitChar (Nat.mod_lt _ (by omega)),
      hexVal_hexDigitChar (Nat.mod_lt _ (by omega)), ih]
    have hlt := char_toNat_lt c
    have hsum : c.toNat / 1048576 % 16 * 1048576 + c.toNat / 65536 % 16 * 65536 +
        c.toNat / 4096 % 16 * 4096 + c.toNat / 256 % 16 * 256 + c.toNat / 16 % 16 * 16 +
        c.toNat % 16 = c.toNat := by omega
    rw [hsum, Char.ofNat_toNat]

theorem parseHex_natToHexFuel (fuel : Nat) :
    ∀ n, n ≤ fuel → parseHex (natToHexFuel fuel n) = n := by
  induction fuel with
  | zero =>
    intro n hle
    have : n = 0 := by omega
    simp [natToHexFuel, parseHex, this]
  | succ f ih =>
    intro n hle
    simp only [natToHexFuel]
    split
    · rename_i h
      simp [parseHex, h]
    · rename_i h
      simp only [parseHex]
      rw [hexVal_hexDigitChar (Nat.mod_lt _ (by omega)), ih (n / 16) (by omega)]
      omega

theorem parseHex_natToHex (n : Nat) : parseHex (natToHex n) = n :=
  parseHex_natToHexFuel n n (Nat.le_refl n)

theorem parseUser_encUser (u : Option String) : parseUser (encUser u) = u := by
  cases u with
  | none => rfl
  | some s =>
    simp only [encUser, parseUser]
    rw [unhex_hexStr]

theorem splitDots_encodeJwt (secret : String) (c : Claims) :
    splitDots (encodeJwt secret c).data =
      [(if c.admin then ['1'] else ['0']), natToHex c.exp, encUser c.username,
       macChars secret (payloadChars c)] := by
  have hA : '.' ∉ (if c.admin then ['1'] else ['0']) := by
    cases c.admin <;> decide
  have hE : '.' ∉ natToHex c.exp := dot_not_mem_natToHex _
  have hU : '.' ∉ encUser c.username := by
    cases c.username with
    | none => decide
    | some s =>
      simp only [encUser]
      intro hmem
      rcases List.mem_cons.mp hmem with h | h
      · exact absurd h (by decide)
      · exact dot_not_mem_hexStr _ h
  have hM : '.' ∉ macChars secret (payloadChars c) := by
    simp only [macChars]
    intro hmem
    rcases List.mem_cons.mp hmem with h | h
    · exact absurd h (by decide)
    · exact dot_not_mem_hexStr _ h
  show splitDots (payloadChars c ++ '.' :: macChars secret (payloadChars c)) = _
  generalize hMdef : macChars secret (payloadChars c) = M at hM ⊢
  conv_lhs => rw [payloadChars]
  rw [List.append_assoc, List.cons_append, splitDots_append _ _ hA,
    List.append_assoc, List.cons_append, splitDots_append _ _ hE,
    splitDots_append _ _ hU, splitDots_single _ hM]

theorem jwtDecode_encodeJwt (secret : String) (c : Claims) (now : Nat) :
    jwtDecode (encodeJwt secret c) secret now =
      if c.exp ≤ now then DecodeResult.expired else DecodeResult.ok c := by
  obtain ⟨adm, u, e⟩ := c
  unfold jwtDecode
  rw [splitDots_encodeJwt]
  cases adm with
  | false =>
    show (if macChars secret (payloadChars ⟨false, u, e⟩) ≠
          macChars secret (['0'] ++ '.' :: (natToHex e ++ '.' :: encUser u)) then
        DecodeResult.invalid "Signature verification failed"
      else if parseHex (natToHex e) ≤ now then DecodeResult.expired
      else DecodeResult.ok ⟨false, parseUser (encUser u), parseHex (natToHex e)⟩) =
      (if e ≤ now then DecodeResult.expired else DecodeResult.ok ⟨false, u, e⟩)
    rw [if_neg (fun hcon => hcon rfl), parseHex_natToHex, parseUser_encUser]
  | true =>
    show (if macChars secret (payloadChars ⟨true, u, e⟩) ≠
          macChars secret (['1'] ++ '.' :: (natToHex e ++ '.' :: encUser u)) then
        DecodeResult.invalid "Signature verification failed"
      else if parseHex (natToHex e) ≤ now then DecodeResult.expired
      else DecodeResult.ok ⟨true, parseUser (encUser u), parseHex (natToHex e)⟩) =
      (if e ≤ now then DecodeResult.expired else DecodeResult.ok ⟨true, u, e⟩)
    rw [if_neg (fun hcon => hcon rfl), parseHex_natToHex, parseUser_encUser]

/-- C9: the guard never inspects the username claim.  Any token signed
with the server secret whose payload has `admin = true` and an unexpired
`exp`, presented under a case-insensitive bearer scheme, makes the guard
run the wrapped handler — for every value (or absence) of the username
claim, which is universally quantified inside `c`. -/
theorem claim9_admin_token_ignores_username
    (secret : String) (c : Claims) (now : Nat) (h sch : String) (handler : Resp)
    (hadmin : c.admin = true) (hexp : now < c.exp)
    (hsplit : pySplit h = [sch, encodeJwt secret c])
    (hsch : pyLower sch = "bearer") :
    admin_required (some h) secret now handler = handler := by
  have hne : h.isEmpty = false := by
    cases hh : h.isEmpty
    · rfl
    · exfalso
      rw [(String.isEmpty_iff h).mp hh] at hsplit
      rw [show pySplit "" = [] from rfl] at hsplit
      exact absurd hsplit (by simp)
  unfold admin_required
  show (if h.isEmpty = true then Resp.err 401 "Authorization header is missing"
    else match pySplit h with
    | [scheme, token] =>
      if pyLower scheme ≠ "bearer" then Resp.err 401 "Invalid authorization scheme"
      else
        match jwtDecode token secret now with
        | DecodeResult.expired => Resp.err 401 "Token has expired"
        | DecodeResult.invalid r => Resp.err 401 ("Invalid token: " ++ r)
        | DecodeResult.ok cl =>
          if ! cl.admin then Resp.err 403 "Admin privileges required"
          else handler
    | _ => Resp.err 401 "Invalid authorization header format") = handler
  rw [hne, if_neg (by simp)]
  show (match pySplit h with
    | [scheme, token] =>
      if pyLower scheme ≠ "bearer" then Resp.err 401 "Invalid authorization scheme"
      else
        match jwtDecode token secret now with
        | DecodeResult.expired => Resp.err 401 "Token has expired"
        | DecodeResult.invalid r => Resp.err 401 ("Invalid token: " ++ r)
        | DecodeResult.ok cl =>
          if ! cl.admin then Resp.err 403 "Admin privileges required"
          else handler
    | _ => Resp.err 401 "Invalid authorization header format") = handler
  rw [hsplit]
  show (if pyLower sch ≠ "bearer" then Resp.err 401 "Invalid authorization scheme"
    else
      match jwtDecode (encodeJwt secret c) secret now with
      | DecodeResult.expired => Resp.err 401 "Token has expired"
      | DecodeResult.invalid r => Resp.err 401 ("Invalid token: " ++ r)
      | DecodeResult.ok cl =>
        if ! cl.admin then Resp.err 403 "Admin privileges required"
        else handler) = handler
  rw [hsch, if_neg (fun hcon => hcon rfl), jwtDecode_encodeJwt,
    if_neg (by omega)]
  show (if ! c.admin then Resp.err 403 "Admin privileges required" else handler) = handler
  rw [hadmin]
  rfl

set_option maxRecDepth 20000 in
/-- C9 witness: a concrete admin token with a username claim present. -/
theorem claim9_witness :
    admin_required (some ("Bearer " ++ encodeJwt "s" ⟨true, some "zed", 99⟩)) "s" 3
      (Resp.ok 200 (Body.msg "ran")) = Resp.ok 200 (Body.msg "ran") :=
  claim9_admin_token_ignores_username "s" ⟨true, some "zed", 99⟩ 3
    ("Bearer " ++ encodeJwt "s" ⟨true, some "zed", 99⟩) "Bearer"
    (Resp.ok 200 (Body.msg "ran")) rfl (by decide) (by decide) (by decide)

set_option maxRecDepth 20000 in
/-- C3 counterexample: the claim orders the checks "expired token, then
invalid signature".  This token is both expired (its exp claim 0 is at
or before the current time 5) and signed with the wrong secret, and the
guard reports the invalid signature, not the expiry: signature
verification precedes expiry validation, because claims must not be
trusted before they are authenticated. -/
theorem claim3_counterexample :
    ((⟨true, none, 0⟩ : Claims)).exp ≤ 5 ∧
    admin_required (some ("Bearer " ++ encodeJwt "other" ⟨true, none, 0⟩)) "k" 5
        (Resp.ok 200 (Body.msg "ran")) =
      Resp.err 401 "Invalid token: Signature verification failed" :=
  ⟨by decide, by decide⟩

/-- C3 amended: on every request the guard behaves exactly like the flat
decision list `guardChecklist`, which rejects before the handler runs
with distinct error kinds checked in the order: missing (or falsy)
Authorization header (401), malformed header — not exactly two
whitespace-separated parts or scheme not case-insensitively bearer
(401), invalid token — bad segment structure, then bad signature, then
unparseable payload (401), expired token (401), then valid token without
the admin flag (403); the handler runs only when every check passes.
The amendment: invalid signature/structure is checked before expiry,
not after it as the claim states. -/
theorem claim3_guard_matches_checklist
    (authHeader : Option String) (secret : String) (now : Nat) (handler : Resp) :
    admin_required authHeader secret now handler =
      (match guardChecklist authHeader secret now with
       | some (code, m) => Resp.err code m
       | none => handler) := by
  cases authHeader with
  | none => rfl
  | some h =>
    by_cases hemp : h.isEmpty
    · simp [admin_required, guardChecklist, hemp]
    · cases hps : pySplit h with
      | nil => simp [admin_required, guardChecklist, hemp, hps]
      | cons a rest =>
        cases rest with
        | nil => simp [admin_required, guardChecklist, hemp, hps]
        | cons b rest2 =>
          cases rest2 with
          | cons c2 rest3 => simp [admin_required, guardChecklist, hemp, hps]
          | nil =>
            by_cases hsch : pyLower a = "bearer"
            · cases hsd : splitDots b.data with
              | nil => simp [admin_required, guardChecklist, jwtDecode, hemp, hps, hsch, hsd]
              | cons s1 r1 =>
                cases r1 with
                | nil => simp [admin_required, guardChecklist, jwtDecode, hemp, hps, hsch, hsd]
                | cons s2 r2 =>
                  cases r2 with
                  | nil => simp [admin_required, guardChecklist, jwtDecode, hemp, hps, hsch, hsd]
                  | cons s3 r3 =>
                    cases r3 with
                    | nil => simp [admin_required, guardChecklist, jwtDecode, hemp, hps, hsch, hsd]
                    | cons s4 r4 =>
                      cases r4 with
                      | cons s5 r5 =>
                        simp [admin_required, guardChecklist, jwtDecode, hemp, hps, hsch, hsd]
                      | nil =>
                        by_cases hsig : s4 = macChars secret (s1 ++ '.' :: (s2 ++ '.' :: s3))
                        · cases hpa : parseAdmin s1 with
                          | none =>
                            simp [admin_required, guardChecklist, jwtDecode, hemp, hps,
                              hsch, hsd, hsig, hpa]
                          | some adm =>
                            by_cases hexp : parseHex s2 ≤ now
                            · simp [admin_required, guardChecklist, jwtDecode, hemp, hps,
                                hsch, hsd, hsig, hpa, hexp]
                            · cases adm <;>
                                simp [admin_required, guardChecklist, jwtDecode, hemp, hps,
                                  hsch, hsd, hsig, hpa, hexp]
                        · simp [admin_required, guardChecklist, jwtDecode, hemp, hps,
                            hsch, hsd, hsig]
            · simp [admin_required, guardChecklist, hemp, hps, hsch]

end AiSolutions
